import Mathlib

/-!
Verification of the sheepdog cluster group engine (`src/sheep/group.c`).

This file gives a shallow embedding of the membership state, the epoch log,
the cluster status machine, the join/leave message handlers and the cpg event
pump of `group.c`, and proves or refutes the frozen claims about them.

Conventions of the embedding:
* intrusive `list_head` lists become Lean `List`s in the same order
  (`list_add_tail` appends, `list_add` and `list_splice` put items in front);
* the process-wide `struct system *sys` becomes one `SysState` record that
  every handler takes and returns;
* the persisted epoch log becomes an association list from epoch number to
  the stored entry array; `epoch_log_read` on a missing epoch yields `-1`
  just as the C helpers do;
* side effects that matter for ordering claims (`sys->epoch++`,
  `epoch_log_write`, `update_epoch_store`, `start_recovery`) are also
  appended to a `trace : List Effect` field, in execution order;
* external collaborators that group.c only calls (the VDI engine, the TCP
  reachability probe, `req->work.done` callbacks, allocation success) are
  abstracted as function parameters that theorems quantify over;
* `exit(1)` paths return `none`; intentional `abort()`/`panic` is modelled
  by a `panicked` flag (fail-stop: the state is frozen at the abort point).
-/

namespace Sheepdog

/-- Cluster status values (`SD_STATUS_*` of sheep_priv.h, as used by group.c). -/
inductive SDStatus where
  | OK
  | WaitForFormat
  | WaitForJoin
  | Shutdown
  | JoinFailed
  | Halt
deriving DecidableEq, Repr

/-- Result codes (`SD_RES_*`) that group.c produces or tests. -/
inductive SDRes where
  | SUCCESS
  | NO_MEM
  | INVALID_PARMS
  | INVALID_CTIME
  | OLD_NODE_VER
  | NEW_NODE_VER
  | INVALID_EPOCH
  | NOT_FORMATTED
  | SHUTDOWN
  | VER_MISMATCH
deriving DecidableEq, Repr

/-- `struct sheepid`: the group-driver identity `(addr, pid)`. -/
structure SheepId where
  addr : List Nat
  pid : Nat
deriving DecidableEq, Repr

/-- `struct sheepdog_node_list_entry`: `{addr, port, zone, nr_vnodes}`. -/
structure NodeEntry where
  addr : List Nat
  port : Nat
  zone : Nat
  nrVnodes : Nat
deriving DecidableEq, Repr

/-- `struct node`: a sheepid together with its node entry, linked into
`cpg_node_list`, `sd_node_list` or `leave_list`. -/
structure SDNode where
  sheepid : SheepId
  ent : NodeEntry
deriving DecidableEq, Repr

/-- Modelled from the spec: `sheepid_cmp` (declared outside src/) totally
orders sheepids by byte comparison of `addr` then `pid`; group.c only uses
`sheepid_cmp(a,b) == 0`, which holds exactly on component equality. -/
def sheepidEq (a b : SheepId) : Bool :=
  a.addr = b.addr ∧ a.pid = b.pid

/-- Modelled from the spec: `node_cmp` (declared outside src/) orders node
entries by `(address, port, zone)`; `node_cmp(a,b) == 0` holds exactly when
those components are equal. -/
def nodeCmpEq (a b : NodeEntry) : Bool :=
  a.addr = b.addr ∧ a.port = b.port ∧ a.zone = b.zone

/-- Modelled from the spec: the `(address, port, zone)` order on node
entries that `qsort(..., node_cmp)` sorts by. -/
def nodeLe (a b : NodeEntry) : Bool :=
  if a.addr ≠ b.addr then decide (a.addr < b.addr)
  else if a.port ≠ b.port then decide (a.port < b.port)
  else decide (a.zone ≤ b.zone)

/-- The persisted epoch log: epoch number ↦ stored entry array. -/
def EpochLog := List (Nat × List NodeEntry)
deriving DecidableEq, Repr

/-- `epoch_log_read` / `epoch_log_read_nr` lookup: the snapshot stored for
epoch `e`, if any. -/
def epochLogFind (log : EpochLog) (e : Nat) : Option (List NodeEntry) :=
  match log.find? (fun p => p.1 = e) with
  | some p => some p.2
  | none => none

/-- `epoch_log_read_nr(e)`: number of entries at epoch `e`, `-1` when the
epoch file is missing. -/
def epochLogReadNr (log : EpochLog) (e : Nat) : Int :=
  match epochLogFind log e with
  | some l => (l.length : Int)
  | none => -1

/-- `epoch_log_write(e, entries)`: writes are atomic per epoch (replace the
record keyed by `e`). -/
def epochLogWrite (log : EpochLog) (e : Nat) (v : List NodeEntry) : EpochLog :=
  (e, v) :: log.filter (fun p => p.1 ≠ e)

/-- `get_latest_epoch()`: the highest epoch with a persisted snapshot, 0 when
none exists. -/
def getLatestEpoch (log : EpochLog) : Nat :=
  log.foldr (fun p acc => max p.1 acc) 0

/-- `get_nodes_nr_epoch(epoch)`: `epoch_log_read` byte count divided by the
entry size; the C division truncates `-1` to `0` for a missing epoch. -/
def getNodesNrEpoch (log : EpochLog) (e : Nat) : Nat :=
  match epochLogFind log e with
  | some l => l.length
  | none => 0

/-- Ordering-relevant side effects of the handlers, recorded in execution
order. -/
inductive Effect where
  | incEpoch
  | logWrite (e : Nat) (entries : List NodeEntry)
  | storeUpdate (e : Nat)
  | recovery (e : Nat)
deriving DecidableEq, Repr

/-- `enum deliver_msg_state`. -/
inductive DMState where
  | INIT
  | CONT
  | FIN
deriving DecidableEq, Repr

/-- `SD_MSG_*` opcodes. -/
inductive MsgOp where
  | JOIN
  | VDI_OP
  | MASTER_CHANGED
  | LEAVE
  | MASTER_TRANSFER
deriving DecidableEq, Repr

/-- `struct message_header`. -/
structure MessageHeader where
  protoVer : Nat
  op : MsgOp
  state : DMState
  sheepid : SheepId
  sfrom : NodeEntry
deriving DecidableEq, Repr

/-- A delivered group message. group.c casts the header to the op-specific
struct, so we model one flat record whose join/leave fields are read
according to `header.op` just as the casts do. -/
structure SDMessage where
  header : MessageHeader
  jNodes : List SDNode
  jNrSobjs : Nat
  jClusterStatus : SDStatus
  jEpoch : Nat
  jCtime : Nat
  jResult : SDRes
  jIncEpoch : Bool
  jLeaveNodes : List SDNode
  lEpoch : Nat
deriving DecidableEq, Repr

/-- `join_message(m)`. -/
def joinMessage (m : MessageHeader) : Bool := m.op = MsgOp.JOIN

/-- `leave_message(m)`. -/
def leaveMessage (m : MessageHeader) : Bool := m.op = MsgOp.LEAVE

/-- `master_tx_message(m)`. -/
def masterTxMessage (m : MessageHeader) : Bool := m.op = MsgOp.MASTER_TRANSFER

/-- A pending client request, reduced to the fields the pump reads before
dispatching it to the abstract request machinery. -/
structure Request where
  rid : Nat
  isIo : Bool
  direct : Bool
  result : SDRes
deriving DecidableEq, Repr

/-- `enum cpg_event_type` events, with the per-event payloads group.c keeps
in `work_join` / `work_leave` / `work_notify` / `request`. -/
inductive CpgEvent where
  | evJoin (skip : Bool) (joined : SheepId) (members : List SheepId)
  | evLeave (skip : Bool) (left : SheepId) (members : List SheepId)
  | evNotify (skip : Bool) (msg : SDMessage)
  | evRequest (r : Request)
deriving DecidableEq, Repr

/-- `cevent->skip`. -/
def CpgEvent.skipBit : CpgEvent → Bool
  | .evJoin s _ _ => s
  | .evLeave s _ _ => s
  | .evNotify s _ => s
  | .evRequest _ => false

/-- `is_membership_change_event(ctype)`. -/
def isMembershipChangeEvent : CpgEvent → Bool
  | .evJoin _ _ _ => true
  | .evLeave _ _ _ => true
  | _ => false

/-- The process-wide `struct system *sys`, restricted to the fields group.c
reads or writes, plus the effect trace and the fail-stop flag. -/
structure SysState where
  status : SDStatus
  joinFinished : Bool
  epoch : Nat
  nrSobjs : Nat
  sdNodeList : List SDNode
  cpgNodeList : List SDNode
  leaveList : List SDNode
  epochLog : EpochLog
  ctime : Nat
  globalCopies : Nat
  epochStore : Nat
  nrVnodes : Nat
  thisNode : NodeEntry
  thisSheepid : SheepId
  queue : List CpgEvent
  running : Bool
  suspended : Bool
  joining : Bool
  nrOutstandingIo : Nat
  curCevent : Option CpgEvent
  outstandingReqs : List Request
  trace : List Effect
  panicked : Bool
deriving DecidableEq, Repr

/-- `is_myself(addr, port)`. -/
def isMyself (s : SysState) (e : NodeEntry) : Bool :=
  s.thisNode.addr = e.addr ∧ s.thisNode.port = e.port

/-- `find_node(node_list, id)`. -/
def findNode (l : List SDNode) (id : SheepId) : Option SDNode :=
  l.find? (fun n => sheepidEq n.sheepid id)

/-- `find_entry_list(entry, head)`: is an equal entry on the list? -/
def findEntryList (e : NodeEntry) (l : List SDNode) : Bool :=
  l.any (fun n => nodeCmpEq n.ent e)

/-- `find_entry_epoch(entry, epoch)`: is an equal entry in the snapshot at
`epoch`? (A missing snapshot reads as `-1` entries, i.e. no match.) -/
def findEntryEpoch (log : EpochLog) (e : NodeEntry) (epoch : Nat) : Bool :=
  match epochLogFind log epoch with
  | some l => l.any (fun x => nodeCmpEq x e)
  | none => false

/-- Sorted insertion with respect to the `(address, port, zone)` order. -/
def insertSorted (e : NodeEntry) : List NodeEntry → List NodeEntry
  | [] => [e]
  | x :: rest => if nodeLe e x then e :: x :: rest else x :: insertSorted e rest

/-- Insertion sort with respect to the `(address, port, zone)` order. -/
def sortEntries : List NodeEntry → List NodeEntry
  | [] => []
  | x :: rest => insertSorted x (sortEntries rest)

/-- `build_node_list` + `qsort(node_cmp)` as used by
`get_ordered_sd_node_list`: the entries of the list, sorted. -/
def sortedEntries (l : List SDNode) : List NodeEntry :=
  sortEntries (l.map SDNode.ent)

/-- `update_epoch_log(epoch)`: write the sorted current `sd_node_list` to
the epoch log (the write is also recorded on the trace). -/
def updateEpochLog (s : SysState) (e : Nat) : SysState :=
  let entries := sortedEntries s.sdNodeList
  { s with epochLog := epochLogWrite s.epochLog e entries
         , trace := s.trace ++ [Effect.logWrite e entries] }

/-- `update_epoch_store(epoch)` (store side, external): recorded as an
effect. -/
def updateEpochStore (s : SysState) (e : Nat) : SysState :=
  { s with epochStore := e, trace := s.trace ++ [Effect.storeUpdate e] }

/-- `start_recovery(epoch)` (recovery subsystem, external): recorded as an
effect. -/
def startRecovery (s : SysState) (e : Nat) : SysState :=
  { s with trace := s.trace ++ [Effect.recovery e] }

/-- `cluster_sanity_check(entries, nr_entries, ctime, epoch)` of group.c
lines 531-575. -/
def cluster_sanity_check (s : SysState) (entries : List NodeEntry)
    (ctime : Nat) (epoch : Nat) : SDRes :=
  if s.status = SDStatus.WaitForFormat ∨ s.status = SDStatus.Shutdown then
    SDRes.SUCCESS
  else if entries.length = 0 then
    SDRes.SUCCESS
  else if ctime ≠ s.ctime then
    SDRes.INVALID_CTIME
  else
    let lepoch := getLatestEpoch s.epochLog
    if epoch > lepoch then
      SDRes.OLD_NODE_VER
    else if s.status = SDStatus.OK ∨ s.status = SDStatus.Halt then
      SDRes.SUCCESS
    else if epoch < lepoch then
      SDRes.NEW_NODE_VER
    else
      let nrLocal := epochLogReadNr s.epochLog epoch
      let localEntries := (epochLogFind s.epochLog epoch).getD []
      if (entries.length : Int) ≠ nrLocal ∨ entries ≠ localEntries then
        SDRes.INVALID_EPOCH
      else
        SDRes.SUCCESS

/-- `get_cluster_status(from, entries, nr_entries, ctime, epoch, &status,
inc_epoch)` of group.c lines 577-650.  `hasInc` tells whether the
`inc_epoch` out-pointer is non-NULL; the returned `Option Bool` is its final
value when present.  Note the `WAIT_FOR_JOIN` equal-counts arm: the source
scans the snapshot for entries that are neither the joiner nor on
`sd_node_list`, but the scan's outcome is discarded (`_allKnown` below) and
`*status = SD_STATUS_OK` runs unconditionally. -/
def get_cluster_status (s : SysState) (sfrom : NodeEntry)
    (entries : List NodeEntry) (ctime : Nat) (epoch : Nat) (hasInc : Bool) :
    SDRes × SDStatus × Option Bool :=
  let status0 := s.status
  let inc0 : Option Bool := if hasInc then some false else none
  let ret := cluster_sanity_check s entries ctime epoch
  if ret ≠ SDRes.SUCCESS then
    (ret, status0, inc0)
  else
    match s.status with
    | SDStatus.Halt | SDStatus.OK =>
        (SDRes.SUCCESS, status0, if hasInc then some true else none)
    | SDStatus.WaitForFormat =>
        if entries.length ≠ 0 then (SDRes.NOT_FORMATTED, status0, inc0)
        else (SDRes.SUCCESS, status0, inc0)
    | SDStatus.WaitForJoin =>
        let nr : Int := (s.sdNodeList.length : Int) + 1
        let nrLocal : Int := epochLogReadNr s.epochLog epoch
        let localEntries := (epochLogFind s.epochLog epoch).getD []
        if nr ≠ nrLocal then
          let nrLeave : Int := (s.leaveList.length : Int)
          if nrLocal = nr + nrLeave then
            (SDRes.SUCCESS, SDStatus.OK, if hasInc then some true else none)
          else
            (SDRes.SUCCESS, status0, inc0)
        else
          let _allKnown := localEntries.all (fun e =>
            nodeCmpEq e sfrom ∨ s.sdNodeList.any (fun n => nodeCmpEq e n.ent))
          (SDRes.SUCCESS, SDStatus.OK, inc0)
    | SDStatus.Shutdown =>
        (SDRes.SHUTDOWN, status0, inc0)
    | SDStatus.JoinFailed =>
        (SDRes.SUCCESS, status0, inc0)

/-- `list_del` of the first node whose sheepid matches (`find_node` finds the
first match, and `list_del` unlinks that node). -/
def removeFirstSheepid (l : List SDNode) (id : SheepId) : List SDNode :=
  match l with
  | [] => []
  | x :: rest =>
      if sheepidEq x.sheepid id then rest else x :: removeFirstSheepid rest id

/-- The per-entry loop of the join arm of `add_node_to_leave_list`
(group.c lines 496-513): allocate (failure aborts the whole call with
`NO_MEM` and the temporary list is freed), drop entries already on
`leave_list` or absent from the latest snapshot, append the rest to the
temporary list in order.  `alloc i` is the success of the i-th `zalloc`. -/
def addLeaveLoop (alloc : Nat → Bool) (log : EpochLog) (le : Nat)
    (leaveList : List SDNode) :
    List SDNode → Nat → List SDNode → Option (List SDNode)
  | [], _, tmp => some tmp
  | x :: rest, i, tmp =>
      if ¬ alloc i then none
      else if findEntryList x.ent leaveList ∨ ¬ findEntryEpoch log x.ent le then
        addLeaveLoop alloc log le leaveList rest (i + 1) tmp
      else
        addLeaveLoop alloc log le leaveList rest (i + 1) (tmp ++ [x])

/-- `add_node_to_leave_list(msg)` of group.c lines 467-529.  For a leave
message the sender is appended to `leave_list` (tail); for a join message
the eligible `leave_nodes[]` are collected on a temporary list which
`list_splice_init` then puts at the head of `leave_list`; any other op is
`INVALID_PARMS`. -/
def add_node_to_leave_list (alloc : Nat → Bool) (s : SysState)
    (m : SDMessage) : SDRes × SysState :=
  let le := getLatestEpoch s.epochLog
  if leaveMessage m.header then
    if ¬ alloc 0 then (SDRes.NO_MEM, s)
    else if findEntryList m.header.sfrom s.leaveList ∨
            ¬ findEntryEpoch s.epochLog m.header.sfrom le then
      (SDRes.SUCCESS, s)
    else
      (SDRes.SUCCESS,
        { s with leaveList :=
            s.leaveList ++ [⟨m.header.sheepid, m.header.sfrom⟩] })
  else if joinMessage m.header then
    match addLeaveLoop alloc s.epochLog le s.leaveList m.jLeaveNodes 0 [] with
    | none => (SDRes.NO_MEM, s)
    | some tmp => (SDRes.SUCCESS, { s with leaveList := tmp ++ s.leaveList })
  else
    (SDRes.INVALID_PARMS, s)

/-- `move_node_to_sd_list(id, ent)` of group.c lines 744-760: find the node
on `cpg_node_list`; if absent return 1; otherwise overwrite its entry,
unlink it from `cpg_node_list`, append it to `sd_node_list` and invalidate
the vnode cache. -/
def move_node_to_sd_list (s : SysState) (id : SheepId) (ent : NodeEntry) :
    Nat × SysState :=
  match findNode s.cpgNodeList id with
  | none => (1, s)
  | some n =>
      (0, { s with cpgNodeList := removeFirstSheepid s.cpgNodeList id,
                   sdNodeList := s.sdNodeList ++ [⟨n.sheepid, ent⟩],
                   nrVnodes := 0 })

/-- The `for (i = 0; i < nr_nodes; i++) move_node_to_sd_list(...)` loop of
`update_cluster_info` (the return value is only logged). -/
def moveNodesLoop : SysState → List SDNode → SysState
  | s, [] => s
  | s, x :: rest => moveNodesLoop (move_node_to_sd_list s x.sheepid x.ent).2 rest

/-- The not-yet-finished-join block of `update_cluster_info` (group.c
lines 801-824): adopt the master's epoch, promote the master-supplied
nodes, merge `leave_nodes[]` while waiting for join, mark the join
finished, and write the epoch log when the master ordered an epoch
increment into OK/Halt. -/
def uciJoinBlock (alloc : Nat → Bool) (s : SysState) (m : SDMessage) :
    SysState :=
  if ¬ s.joinFinished then
    let s := { s with epoch := m.jEpoch }
    let s := moveNodesLoop s m.jNodes
    let s := if m.jClusterStatus = SDStatus.WaitForJoin then
               (add_node_to_leave_list alloc s m).2
             else s
    let s := { s with joinFinished := true }
    if (m.jClusterStatus = SDStatus.OK ∨ m.jClusterStatus = SDStatus.Halt)
        ∧ m.jIncEpoch then
      updateEpochLog s s.epoch
    else s
  else s

/-- The OK/Halt epilogue of `update_cluster_info` (group.c lines 836-849):
when the master ordered an epoch increment, advance the epoch and persist
log and store; the source's `sys->status != SD_STATUS_OK || sys->status !=
SD_STATUS_HALT` guard is a tautology and is embedded as written. -/
def uciOkBlock (s : SysState) (m : SDMessage) : SysState :=
  if m.jClusterStatus = SDStatus.OK ∨ m.jClusterStatus = SDStatus.Halt then
    let s :=
      if m.jIncEpoch then
        let s := { s with epoch := s.epoch + 1,
                          trace := s.trace ++ [Effect.incEpoch] }
        let s := updateEpochLog s s.epoch
        updateEpochStore s s.epoch
      else s
    if s.status ≠ SDStatus.OK ∨ s.status ≠ SDStatus.Halt then
      { s with globalCopies := s.nrSobjs, ctime := m.jCtime }
    else s
  else s

/-- `update_cluster_info(msg)` of group.c lines 778-855, for a FIN Join
message.  `none` models the `exit(1)` a joiner performs when its own join
failed. -/
def update_cluster_info (alloc : Nat → Bool) (s : SysState) (m : SDMessage) :
    Option SysState :=
  if m.jResult ≠ SDRes.SUCCESS then
    if isMyself s m.header.sfrom then none
    else some s
  else if s.status = SDStatus.JoinFailed then some s
  else
    let s := if s.nrSobjs = 0 then { s with nrSobjs := m.jNrSobjs } else s
    let s := uciJoinBlock alloc s m
    let s := (move_node_to_sd_list s m.header.sheepid m.header.sfrom).2
    let s := uciOkBlock s m
    some { s with status := m.jClusterStatus }

/-- `del_node(id)` of group.c lines 1254-1289: if the node is on
`sd_node_list`, unlink it, and while status is OK/Halt write the new
snapshot to `epoch + 1`, then increment `sys->epoch`, then update the
store; return 1.  Otherwise unlink it from `cpg_node_list` if present and
return 0. -/
def del_node (s : SysState) (id : SheepId) : Nat × SysState :=
  match findNode s.sdNodeList id with
  | some _ =>
      let s := { s with nrVnodes := 0,
                        sdNodeList := removeFirstSheepid s.sdNodeList id }
      if s.status = SDStatus.OK ∨ s.status = SDStatus.Halt then
        let entries := sortedEntries s.sdNodeList
        let s := { s with
                    epochLog := epochLogWrite s.epochLog (s.epoch + 1) entries,
                    trace := s.trace ++ [Effect.logWrite (s.epoch + 1) entries] }
        let s := { s with epoch := s.epoch + 1,
                          trace := s.trace ++ [Effect.incEpoch] }
        (1, updateEpochStore s s.epoch)
      else
        (1, s)
  | none =>
      match findNode s.cpgNodeList id with
      | some _ => (0, { s with cpgNodeList := removeFirstSheepid s.cpgNodeList id })
      | none => (0, s)

/-- The reachability loop of `check_majority` (group.c lines 1308-1323):
skip the departed node, count TCP-reachable members, return 1 as soon as
the count reaches the majority, 0 when the list is exhausted.  `reach` is
the outcome of `connect_to` for each member. -/
def majorityLoop (reach : NodeEntry → Bool) (left : SheepId) (maj : Nat) :
    List SDNode → Nat → Bool
  | [], _ => false
  | n :: rest, cnt =>
      if sheepidEq n.sheepid left then majorityLoop reach left maj rest cnt
      else if ¬ reach n.ent then majorityLoop reach left maj rest cnt
      else if cnt + 1 ≥ maj then true
      else majorityLoop reach left maj rest (cnt + 1)

/-- `check_majority(left)` of group.c lines 1294-1327: majority is
`nr_nodes / 2 + 1`; clusters of fewer than 3 nodes skip the check. -/
def check_majority (s : SysState) (reach : NodeEntry → Bool)
    (left : SheepId) : Bool :=
  let nrNodes := s.sdNodeList.length
  let nrMajority := nrNodes / 2 + 1
  if nrNodes < 3 then true
  else majorityLoop reach left nrMajority s.sdNodeList 0

/-- `__sd_leave` (group.c lines 1329-1337) aborts the process exactly when
`check_majority` fails. -/
def sd_leave_aborts (s : SysState) (reach : NodeEntry → Bool)
    (left : SheepId) : Bool :=
  ¬ check_majority s reach left

/-- `is_master()`: the local node is master when it has finished joining and
heads `sd_node_list`. -/
def is_master (s : SysState) : Bool :=
  if ¬ s.joinFinished then false
  else
    match s.sdNodeList.head? with
    | some n => isMyself s n.ent
    | none => false

/-- `node->ent = m->from` on the first `cpg_node_list` node matching the
sender sheepid (the in-place update in `__sd_notify`). -/
def setEntFirst (l : List SDNode) (id : SheepId) (ent : NodeEntry) :
    List SDNode :=
  match l with
  | [] => []
  | x :: rest =>
      if sheepidEq x.sheepid id then { x with ent := ent } :: rest
      else x :: setEntFirst rest id ent

/-- `__sd_notify` (group.c lines 997-1060), the stage-1 notify handler.
Returns the new state and the event's `skip` bit.  The VDI execution at the
master (`vdi_op`) and the VDI-bitmap pull on an OK transition
(`get_vdi_bitmap_from*`) belong to external subsystems and are passed in as
`vdiOpStep` / `bitmapStep`. -/
def sd_notify_stage1 (vdiOpStep : SysState → SDMessage → SysState)
    (bitmapStep : SysState → SDMessage → SysState)
    (s : SysState) (m : SDMessage) : SysState × Bool :=
  if (¬ s.joinFinished ∧ ¬ masterTxMessage m.header) ∧
      ¬ sheepidEq m.header.sheepid s.thisSheepid then
    (s, true)
  else
    let cont : SysState → SysState × Bool := fun s =>
      let s :=
        if m.header.state = DMState.INIT ∧ is_master s then
          match m.header.op with
          | MsgOp.JOIN => s
          | MsgOp.VDI_OP => vdiOpStep s m
          | _ => s
        else s
      let s :=
        if m.header.state = DMState.FIN ∧ joinMessage m.header then
          if m.jClusterStatus = SDStatus.OK ∧ s.status ≠ SDStatus.OK then
            bitmapStep s m
          else s
        else s
      (s, false)
    if joinMessage m.header then
      match findNode s.cpgNodeList m.header.sheepid with
      | none => (s, false)
      | some _ =>
          cont { s with cpgNodeList :=
                  setEntFirst s.cpgNodeList m.header.sheepid m.header.sfrom }
    else cont s

/-- The block shared by the `SD_MSG_LEAVE` fall-through and
`SD_MSG_MASTER_TRANSFER` in `__sd_notify_done` (group.c lines 1139-1162):
while waiting for join, record the departed node on the leave list,
finalize mastership transfer, and re-check the `WaitForJoin → OK` quorum
condition. -/
def notifyDoneWfjBlock (alloc : Nat → Bool) (s : SysState) (m : SDMessage) :
    SysState :=
  if s.status = SDStatus.WaitForJoin then
    let s := (add_node_to_leave_list alloc s m).2
    let s :=
      if ¬ s.joinFinished then
        let s := { s with joinFinished := true }
        let s := (move_node_to_sd_list s s.thisSheepid s.thisNode).2
        { s with epoch := getLatestEpoch s.epochLog }
      else s
    let nrLocal := getNodesNrEpoch s.epochLog s.epoch
    let nr := s.sdNodeList.length
    let nrLeave := s.leaveList.length
    if nrLocal = nr + nrLeave then
      let s := { s with status := SDStatus.OK }
      let s := updateEpochLog s s.epoch
      updateEpochStore s s.epoch
    else s
  else s

/-- `__sd_notify_done` (group.c lines 1109-1202), the stage-2 notify
handler.  `masterInitStep` abstracts the master's handling of INIT
messages (`send_join_response` and the VDI FIN rebroadcast, both of which
go through the external driver and may `exit(1)`); `none` models process
exit. -/
def sd_notify_done (alloc : Nat → Bool)
    (masterInitStep : SysState → SDMessage → Option SysState)
    (s : SysState) (m : SDMessage) : Option SysState :=
  let afterFin : Option SysState :=
    if m.header.state = DMState.FIN then
      match m.header.op with
      | MsgOp.JOIN => update_cluster_info alloc s m
      | MsgOp.LEAVE =>
          let s :=
            match findNode s.sdNodeList m.header.sheepid with
            | some _ =>
                let s := { s with nrVnodes := 0,
                                  sdNodeList :=
                                    removeFirstSheepid s.sdNodeList
                                      m.header.sheepid }
                if s.status = SDStatus.OK then
                  let s := { s with epoch := s.epoch + 1,
                                    trace := s.trace ++ [Effect.incEpoch] }
                  let s := updateEpochLog s s.epoch
                  updateEpochStore s s.epoch
                else s
            | none => s
          some (notifyDoneWfjBlock alloc s m)
      | MsgOp.MASTER_TRANSFER => some (notifyDoneWfjBlock alloc s m)
      | _ => some s
    else some s
  afterFin.bind fun s =>
    let doRecovery := m.header.state = DMState.FIN ∧
      (joinMessage m.header ∨ leaveMessage m.header)
    let afterInit : Option SysState :=
      if m.header.state = DMState.INIT ∧ is_master s then masterInitStep s m
      else some s
    afterInit.map fun s =>
      if doRecovery ∧ (s.status = SDStatus.OK ∨ s.status = SDStatus.Halt) then
        startRecovery { s with leaveList := [] } s.epoch
      else s

/-- `cpg_event_done` (group.c lines 1505-1588) up to the re-entry into the
pump: take the current event, clear `cur_cevent`, and unless the pump is
suspended or the event is marked skip, run the stage-2 switch (`dispatch`
stands for the whole switch: `__sd_join_done`, `__sd_leave_done`,
`vdi_op_done`, the FIN-promotion logic and `__sd_notify_done`); finally
free the event and clear `running`. -/
def cpg_event_done_core (dispatch : SysState → CpgEvent → SysState)
    (s : SysState) : SysState :=
  match s.curCevent with
  | none => s
  | some ev =>
      let s := { s with curCevent := none }
      let s :=
        if s.suspended then s
        else if ev.skipBit then s
        else dispatch s ev
      { s with running := false }

/-- One pass of the drain loop of `start_cpg_event_work` (group.c lines
1709-1778): walk the queue from the head, keep notify events, stop at the
first membership event, and hand each request to the dispatch machinery.
`reqStep` abstracts the per-request admission-and-dispatch body (its
second component is whether the request failed synchronously, which makes
the loop retry).  Returns the remaining queue, the state and the retry
flag. -/
def drainScan (reqStep : SysState → Request → SysState × Bool) :
    List CpgEvent → SysState → Bool → List CpgEvent × SysState × Bool
  | [], s, retry => ([], s, retry)
  | e :: rest, s, retry =>
      match e with
      | CpgEvent.evNotify _ _ =>
          let r := drainScan reqStep rest s retry
          (e :: r.1, r.2)
      | CpgEvent.evJoin _ _ _ => (e :: rest, s, retry)
      | CpgEvent.evLeave _ _ _ => (e :: rest, s, retry)
      | CpgEvent.evRequest r =>
          let p := reqStep s r
          drainScan reqStep rest p.1 (retry ∨ p.2)

/-- The `do_retry` loop around `drainScan` (the failed-request list makes
the source rescan; a fuel bound replaces the unbounded `goto`). -/
def drainLoop (reqStep : SysState → Request → SysState × Bool) :
    Nat → SysState → SysState
  | 0, s => s
  | Nat.succ fuel, s =>
      let r := drainScan reqStep s.queue s false
      let s' := { r.2.1 with queue := r.1 }
      if r.2.2 then drainLoop reqStep fuel s' else s'

/-- `start_cpg_event_work` (group.c lines 1656-1811), the event-queue pump.
`reqStep` and `reqDone` abstract the request dispatch machinery and the
`req->work.done` callback (both outside group.c); `fuel` bounds the retry
loop.  Starting an event = popping the head, storing it in `cur_cevent`
and setting `running` (the queued worker then runs stage 1/2). -/
def start_cpg_event_work (reqStep : SysState → Request → SysState × Bool)
    (reqDone : SysState → Request → SysState) (fuel : Nat)
    (s : SysState) : SysState :=
  match s.queue with
  | [] => s
  | cevent :: rest =>
      if s.running ∧ isMembershipChangeEvent cevent then s
      else if s.joining then
        if ¬ s.suspended then { s with panicked := true }
        else
          match cevent with
          | CpgEvent.evRequest r =>
              if r.isIo ∧ r.direct then
                let r' := { r with result := SDRes.NEW_NODE_VER }
                let s := { s with queue := rest,
                                  outstandingReqs := s.outstandingReqs ++ [r'],
                                  nrOutstandingIo := s.nrOutstandingIo + 1 }
                reqDone s r'
              else s
          | _ => s
      else
        let s := drainLoop reqStep fuel s
        if s.running ∨ s.suspended ∨ s.queue.isEmpty then s
        else
          match s.queue with
          | [] => s
          | head :: rest' =>
              if isMembershipChangeEvent head ∧ s.nrOutstandingIo ≠ 0 then s
              else { s with queue := rest', curCevent := some head,
                            running := true }

/-- `cpg_event_done` including the re-entry into the pump (group.c lines
1581-1587). -/
def cpg_event_done (dispatch : SysState → CpgEvent → SysState)
    (reqStep : SysState → Request → SysState × Bool)
    (reqDone : SysState → Request → SysState) (fuel : Nat)
    (s : SysState) : SysState :=
  let s := cpg_event_done_core dispatch s
  if ¬ s.queue.isEmpty then
    if s.joining then start_cpg_event_work reqStep reqDone fuel s
    else if ¬ s.suspended then start_cpg_event_work reqStep reqDone fuel s
    else s
  else s

/-- `sd_join_handler(joined, members, nr_members)` (group.c lines
1813-1857): on Shutdown, return after logging; otherwise allocate the
event (allocation failure panics), append it to the queue and pump.
`allocOk` is the success of the two `zalloc`s. -/
def sd_join_handler (reqStep : SysState → Request → SysState × Bool)
    (reqDone : SysState → Request → SysState) (fuel : Nat) (allocOk : Bool)
    (s : SysState) (joined : SheepId) (members : List SheepId) : SysState :=
  if s.status = SDStatus.Shutdown then s
  else if ¬ allocOk then { s with panicked := true }
  else
    let s := { s with queue := s.queue ++ [CpgEvent.evJoin false joined members] }
    start_cpg_event_work reqStep reqDone fuel s

/-- `sd_leave_handler(left, members, nr_members)` (group.c lines
1859-1903): same shape as the join handler. -/
def sd_leave_handler (reqStep : SysState → Request → SysState × Bool)
    (reqDone : SysState → Request → SysState) (fuel : Nat) (allocOk : Bool)
    (s : SysState) (left : SheepId) (members : List SheepId) : SysState :=
  if s.status = SDStatus.Shutdown then s
  else if ¬ allocOk then { s with panicked := true }
  else
    let s := { s with queue := s.queue ++ [CpgEvent.evLeave false left members] }
    start_cpg_event_work reqStep reqDone fuel s

/-! Concrete nodes, messages and states used to evaluate the handlers on
explicit inputs. -/

/-- Example node entry A. -/
def exEntA : NodeEntry := ⟨[1], 7000, 1, 64⟩

/-- Example node entry B. -/
def exEntB : NodeEntry := ⟨[2], 7000, 2, 64⟩

/-- Example node entry X (present in a snapshot but unknown to the local
node lists). -/
def exEntX : NodeEntry := ⟨[3], 7000, 3, 64⟩

/-- Example node entry F (a joining node). -/
def exEntF : NodeEntry := ⟨[4], 7000, 4, 64⟩

/-- Example sheepid of node A. -/
def exIdA : SheepId := ⟨[1], 100⟩

/-- Example sheepid of node B. -/
def exIdB : SheepId := ⟨[2], 200⟩

/-- Example sheepid of node X. -/
def exIdX : SheepId := ⟨[3], 300⟩

/-- A quiescent local state: freshly created node, empty lists and log. -/
def emptySys : SysState :=
  { status := SDStatus.WaitForJoin, joinFinished := false, epoch := 0,
    nrSobjs := 0, sdNodeList := [], cpgNodeList := [], leaveList := [],
    epochLog := [], ctime := 0, globalCopies := 0, epochStore := 0,
    nrVnodes := 0, thisNode := ⟨[9], 7000, 9, 64⟩, thisSheepid := ⟨[9], 900⟩,
    queue := [], running := false, suspended := false, joining := false,
    nrOutstandingIo := 0, curCevent := none, outstandingReqs := [],
    trace := [], panicked := false }

/-- A `WaitForJoin` node whose latest snapshot (epoch 1) holds `A, B, X`
while only `A` and `B` are on `sd_node_list`. -/
def sysWfj : SysState :=
  { emptySys with status := SDStatus.WaitForJoin,
                  sdNodeList := [⟨exIdA, exEntA⟩, ⟨exIdB, exEntB⟩],
                  epochLog := [(1, [exEntA, exEntB, exEntX])], ctime := 7 }

/-- An `OK` node at epoch 3 whose log reaches epoch 2 beyond epoch 1. -/
def sysOkStale : SysState :=
  { emptySys with status := SDStatus.OK,
                  epochLog := [(1, [exEntA]), (2, [exEntA, exEntB])],
                  ctime := 7 }

/-- A 3-node cluster (A, B, X) used for the majority check. -/
def sysThree : SysState :=
  { emptySys with sdNodeList := [⟨exIdA, exEntA⟩, ⟨exIdB, exEntB⟩,
                                 ⟨exIdX, exEntX⟩] }

/-- An `OK` 2-node cluster (A, B) at epoch 3 with its snapshot persisted. -/
def sysOk3 : SysState :=
  { emptySys with status := SDStatus.OK, epoch := 3,
                  sdNodeList := [⟨exIdA, exEntA⟩, ⟨exIdB, exEntB⟩],
                  epochLog := [(3, [exEntA, exEntB])], ctime := 7 }

/-- An `SD_MSG_LEAVE` FIN message from node B. -/
def msgLeaveB : SDMessage :=
  { header := ⟨1, MsgOp.LEAVE, DMState.FIN, exIdB, exEntB⟩,
    jNodes := [], jNrSobjs := 0, jClusterStatus := SDStatus.OK, jEpoch := 0,
    jCtime := 0, jResult := SDRes.SUCCESS, jIncEpoch := false,
    jLeaveNodes := [], lEpoch := 3 }

/-- A successful `SD_MSG_JOIN` FIN message for node X carrying
`cluster_status = OK` and `inc_epoch = 1`. -/
def msgJoinX : SDMessage :=
  { header := ⟨1, MsgOp.JOIN, DMState.FIN, exIdX, exEntX⟩,
    jNodes := [], jNrSobjs := 3, jClusterStatus := SDStatus.OK, jEpoch := 3,
    jCtime := 7, jResult := SDRes.SUCCESS, jIncEpoch := true,
    jLeaveNodes := [], lEpoch := 0 }

/-- The `OK` cluster `sysOk3` with the joiner X still on `cpg_node_list`
and `join_finished` set. -/
def sysOkJoined : SysState :=
  { sysOk3 with joinFinished := true, nrSobjs := 3,
                cpgNodeList := [⟨exIdX, exEntX⟩] }

/-- A successful `SD_MSG_JOIN` FIN message for node X with
`cluster_status = WaitForJoin` and `inc_epoch` set. -/
def msgJoinWfj : SDMessage :=
  { header := ⟨1, MsgOp.JOIN, DMState.FIN, exIdX, exEntX⟩,
    jNodes := [], jNrSobjs := 0, jClusterStatus := SDStatus.WaitForJoin,
    jEpoch := 0, jCtime := 0, jResult := SDRes.SUCCESS, jIncEpoch := true,
    jLeaveNodes := [], lEpoch := 0 }

/-- A node that has finished joining but still waits for quorum. -/
def sysWfjJoined : SysState :=
  { emptySys with joinFinished := true, status := SDStatus.WaitForJoin }

/-- A pump state whose current event is a skipped notify. -/
def sysSkipEv : SysState :=
  { emptySys with running := true,
                  curCevent := some (CpgEvent.evNotify true msgLeaveB) }

/-- The number of `cpg_node_list` nodes carrying a given sheepid. -/
def cpgCount (l : List SDNode) (id : SheepId) : Nat :=
  (l.filter (fun n => sheepidEq n.sheepid id)).length

/-- The number of reachable members other than the departed one — the
quantity `check_majority` compares against the majority. -/
def reachableCount (s : SysState) (reach : NodeEntry → Bool)
    (left : SheepId) : Nat :=
  (s.sdNodeList.filter
    (fun n => ¬ sheepidEq n.sheepid left ∧ reach n.ent)).length

/-! Claim theorems. -/

/-- C1: when the local status is `WaitForJoin`, the sanity check passes and
`nr == nr_local`, `get_cluster_status` is claimed to answer `OK` only when
every snapshot entry is the joiner or a `sd_node_list` member.  The code
does not: at `sysWfj` the snapshot at epoch 1 holds entry `X`, which is
neither the joiner `F` nor on `sd_node_list = [A, B]`, the counts agree
(2 + 1 = 3) and the sanity check passes, yet the returned status is `OK`
(the membership scan of group.c lines 624-634 is computed and discarded). -/
theorem claim1_wait_for_join_ok_unconditional :
    cluster_sanity_check sysWfj [exEntA, exEntB, exEntX] 7 1 = SDRes.SUCCESS ∧
    (sysWfj.sdNodeList.length : Int) + 1 = epochLogReadNr sysWfj.epochLog 1 ∧
    nodeCmpEq exEntX exEntF = false ∧
    sysWfj.sdNodeList.all (fun n => ¬ nodeCmpEq exEntX n.ent) = true ∧
    get_cluster_status sysWfj exEntF [exEntA, exEntB, exEntX] 7 1 true =
      (SDRes.SUCCESS, SDStatus.OK, some false) := by
  decide

/-- C2 counterexample: the claim says `cluster_sanity_check` returns
`NewNodeVer` exactly when the joiner's epoch is below the local latest one
and the local status is OK or Halt.  At `sysOkStale` (status `OK`, latest
epoch 2) a joiner reporting epoch 1 gets `Success`, not `NewNodeVer`: an
OK/Halt status makes the function return `Success` before the
`epoch < latest` test is reached. -/
theorem claim2_counterexample :
    sysOkStale.status = SDStatus.OK ∧
    1 < getLatestEpoch sysOkStale.epochLog ∧
    cluster_sanity_check sysOkStale [exEntA] 7 1 = SDRes.SUCCESS := by
  decide

/-- C2 amended: `cluster_sanity_check` returns `NewNodeVer` exactly when
the joiner's epoch is below the local latest epoch and the local status is
NOT one of WaitForFormat, Shutdown, OK, Halt (and the joiner reports a
non-empty node set with a matching ctime); and it is skipped entirely
(returns `Success`) when the local status is WaitForFormat or Shutdown or
the joiner reports zero entries. -/
theorem claim2_new_node_ver_iff (s : SysState) (entries : List NodeEntry)
    (ctime epoch : Nat) :
    (cluster_sanity_check s entries ctime epoch = SDRes.NEW_NODE_VER ↔
      (s.status ≠ SDStatus.WaitForFormat ∧ s.status ≠ SDStatus.Shutdown ∧
       s.status ≠ SDStatus.OK ∧ s.status ≠ SDStatus.Halt ∧
       entries ≠ [] ∧ ctime = s.ctime ∧
       epoch < getLatestEpoch s.epochLog)) ∧
    ((s.status = SDStatus.WaitForFormat ∨ s.status = SDStatus.Shutdown ∨
        entries = []) →
      cluster_sanity_check s entries ctime epoch = SDRes.SUCCESS) := by
  unfold cluster_sanity_check
  constructor
  · split_ifs with h1 h2 h3 <;> simp_all [List.length_eq_zero] <;>
      first
        | tauto
        | (split_ifs <;> simp_all <;> first | omega | tauto)
  · intro h
    split_ifs <;> simp_all [List.length_eq_zero]

/-- C2 witness: the skip half of `claim2_new_node_ver_iff` applied to a
node in WaitForFormat status with a non-trivial input. -/
theorem claim2_witness :
    cluster_sanity_check { emptySys with status := SDStatus.WaitForFormat }
      [exEntA] 3 9 = SDRes.SUCCESS :=
  (claim2_new_node_ver_iff { emptySys with status := SDStatus.WaitForFormat }
    [exEntA] 3 9).2 (Or.inl rfl)

/-- The early-exit reachability loop equals a threshold test on the count
of reachable members other than the departed one, as long as the running
count is still below the majority (which holds at entry, where it is 0). -/
theorem majorityLoop_spec (reach : NodeEntry → Bool) (left : SheepId)
    (maj : Nat) (l : List SDNode) : ∀ cnt : Nat, cnt < maj →
    majorityLoop reach left maj l cnt =
      decide (maj ≤ cnt +
        (l.filter (fun n => ¬ sheepidEq n.sheepid left ∧ reach n.ent)).length) := by
  induction l with
  | nil => intro cnt h; simp [majorityLoop]; omega
  | cons n rest ih =>
      intro cnt h
      by_cases h1 : sheepidEq n.sheepid left = true
      · rw [majorityLoop, if_pos h1, ih cnt h]
        simp [h1]
      · by_cases h2 : reach n.ent = true
        · by_cases h3 : cnt + 1 ≥ maj
          · rw [majorityLoop, if_neg h1, if_neg (by simp [h2]), if_pos h3]
            symm
            simp only [List.filter_cons, h1, h2]
            simp [h1, h2]
            omega
          · rw [majorityLoop, if_neg h1, if_neg (by simp [h2]), if_neg h3,
              ih (cnt + 1) (by omega)]
            simp only [List.filter_cons, h1, h2]
            simp [h1, h2, decide_eq_decide]
            omega
        · rw [majorityLoop, if_neg h1, if_pos (by simp [h2]), ih cnt h]
          simp only [List.filter_cons]
          simp [h1, h2]

/-- C3 counterexample: the claim's threshold is `⌈n/2⌉ + 1`, which for the
3-node cluster `sysThree` is 3; with 2 of the 2 remaining members
reachable the claim therefore demands an abort, but `__sd_leave` does not
abort — the source majority is `n/2 + 1 = 2` (integer division) and
2 reachable ≥ 2. -/
theorem claim3_counterexample :
    sd_leave_aborts sysThree (fun e => e.zone = 1 ∨ e.zone = 2) exIdX = false ∧
    3 ≤ sysThree.sdNodeList.length ∧
    reachableCount sysThree (fun e => e.zone = 1 ∨ e.zone = 2) exIdX <
      (sysThree.sdNodeList.length + 1) / 2 + 1 := by
  decide

/-- C3 amended: on a driver leave the process aborts exactly when the
cluster has `n ≥ 3` members and fewer than `⌊n/2⌋ + 1` of them (excluding
the departed node) are TCP-reachable; for 1- or 2-node clusters the check
is skipped and no abort happens.  (For `n = 3` the threshold is 2 and one
reachable node still causes an abort, as the claim's example says; only
the general `⌈n/2⌉ + 1` formula is off.) -/
theorem claim3_majority_floor (s : SysState) (reach : NodeEntry → Bool)
    (left : SheepId) :
    sd_leave_aborts s reach left = true ↔
      (3 ≤ s.sdNodeList.length ∧
       reachableCount s reach left < s.sdNodeList.length / 2 + 1) := by
  unfold sd_leave_aborts check_majority reachableCount
  by_cases h : s.sdNodeList.length < 3
  · simp [h]
  · rw [if_neg h, majorityLoop_spec reach left _ _ 0 (Nat.succ_pos _)]
    simp
    omega

/-- C4 counterexample: the claim says the stage-2 `SD_MSG_LEAVE` handler
writes the new snapshot to `epoch + 1` *before* incrementing `sys->epoch`.
On the OK 2-node cluster `sysOk3` (epoch 3) removing node B produces the
effect trace below, in execution order: the increment of `sys->epoch` comes
first and the write to epoch 4 second — the source does `sys->epoch++;
update_epoch_log(sys->epoch);` (group.c lines 1133-1134). -/
theorem claim4_counterexample :
    (sd_notify_done (fun _ => true) (fun s _ => some s) sysOk3 msgLeaveB).map
        SysState.trace =
      some [Effect.incEpoch, Effect.logWrite 4 [exEntA], Effect.storeUpdate 4,
            Effect.recovery 4] := by
  decide

/-- C4 amended: in the stage-2 handler of an `SD_MSG_LEAVE` FIN notify,
when the departing node is on `sd_node_list` and the status is OK,
`sys->epoch` is incremented first and the snapshot write then targets the
incremented value, i.e. old epoch + 1 (then the store is updated and
recovery started at the same epoch). -/
theorem claim4_inc_before_write (alloc : Nat → Bool)
    (mis : SysState → SDMessage → Option SysState) (s : SysState)
    (m : SDMessage) (n : SDNode)
    (hop : m.header.op = MsgOp.LEAVE) (hst : m.header.state = DMState.FIN)
    (hn : findNode s.sdNodeList m.header.sheepid = some n)
    (hok : s.status = SDStatus.OK) (htr : s.trace = []) :
    ∃ s', sd_notify_done alloc mis s m = some s' ∧
      s'.trace = [Effect.incEpoch,
        Effect.logWrite (s.epoch + 1)
          (sortedEntries (removeFirstSheepid s.sdNodeList m.header.sheepid)),
        Effect.storeUpdate (s.epoch + 1),
        Effect.recovery (s.epoch + 1)] ∧
      s'.epoch = s.epoch + 1 := by
  simp [sd_notify_done, hop, hst, hn, hok, htr, updateEpochLog,
    updateEpochStore, startRecovery, notifyDoneWfjBlock, joinMessage,
    leaveMessage]

/-- C4 witness: the amended ordering at the concrete input of the
counterexample. -/
theorem claim4_witness :
    ∃ s', sd_notify_done (fun _ => true) (fun s _ => some s) sysOk3 msgLeaveB
        = some s' ∧
      s'.trace = [Effect.incEpoch,
        Effect.logWrite (sysOk3.epoch + 1)
          (sortedEntries (removeFirstSheepid sysOk3.sdNodeList
            msgLeaveB.header.sheepid)),
        Effect.storeUpdate (sysOk3.epoch + 1),
        Effect.recovery (sysOk3.epoch + 1)] ∧
      s'.epoch = sysOk3.epoch + 1 :=
  claim4_inc_before_write (fun _ => true) (fun s _ => some s) sysOk3 msgLeaveB
    ⟨exIdB, exEntB⟩ rfl rfl (by decide) rfl rfl



theorem move_fields (s : SysState) (id : SheepId) (ent : NodeEntry) :
    (move_node_to_sd_list s id ent).2.joinFinished = s.joinFinished ∧
    (move_node_to_sd_list s id ent).2.status = s.status := by
  unfold move_node_to_sd_list
  rcases findNode s.cpgNodeList id with _ | n <;> simp

theorem moveLoop_jf (l : List SDNode) : ∀ s : SysState,
    (moveNodesLoop s l).joinFinished = s.joinFinished := by
  induction l with
  | nil => intro s; rfl
  | cons x rest ih =>
      intro s
      rw [moveNodesLoop, ih]
      exact (move_fields s x.sheepid x.ent).1

theorem add_fields (alloc : Nat → Bool) (s : SysState) (m : SDMessage) :
    (add_node_to_leave_list alloc s m).2.joinFinished = s.joinFinished ∧
    (add_node_to_leave_list alloc s m).2.cpgNodeList = s.cpgNodeList := by
  unfold add_node_to_leave_list
  by_cases h1 : leaveMessage m.header = true
  · by_cases h2 : alloc 0 = true
    · simp only [h1, if_true, h2, not_true_eq_false, if_false]
      split <;> simp
    · simp [h1, h2]
  · by_cases h3 : joinMessage m.header = true
    · simp only [h1, h3, Bool.false_eq_true, if_false, if_true]
      split <;> simp
    · simp [h1, h3]

theorem uciJoinBlock_jf (alloc : Nat → Bool) (s : SysState) (m : SDMessage) :
    (uciJoinBlock alloc s m).joinFinished = true := by
  unfold uciJoinBlock
  by_cases h : s.joinFinished = true
  · simp [h]
  · rw [if_pos h]
    split_ifs <;> simp [updateEpochLog]

theorem cpgCount_cons (x : SDNode) (rest : List SDNode) (id : SheepId) :
    cpgCount (x :: rest) id =
      (if sheepidEq x.sheepid id = true then 1 else 0) + cpgCount rest id := by
  by_cases h : sheepidEq x.sheepid id = true <;>
    simp [cpgCount, List.filter_cons, h, Nat.add_comm]

theorem cpgCount_zero_iff (l : List SDNode) (id : SheepId) :
    cpgCount l id = 0 ↔ findNode l id = none := by
  induction l with
  | nil => simp [cpgCount, findNode]
  | cons x rest ih =>
      by_cases h : sheepidEq x.sheepid id = true
      · simp [cpgCount_cons, findNode, h, List.find?_cons_of_pos]
      · simpa [cpgCount_cons, findNode, h, List.find?_cons_of_neg] using ih

theorem findNode_after_remove (l : List SDNode) (id : SheepId)
    (h : cpgCount l id ≤ 1) :
    findNode (removeFirstSheepid l id) id = none := by
  induction l with
  | nil => simp [removeFirstSheepid, findNode]
  | cons x rest ih =>
      by_cases hx : sheepidEq x.sheepid id = true
      · have h0 : cpgCount rest id = 0 := by
          rw [cpgCount_cons, if_pos hx] at h; omega
        rw [removeFirstSheepid, if_pos hx]
        exact (cpgCount_zero_iff rest id).1 h0
      · have h' : cpgCount rest id ≤ 1 := by
          rw [cpgCount_cons, if_neg hx] at h; omega
        rw [removeFirstSheepid, if_neg hx]
        simpa [findNode, List.find?_cons_of_neg, hx] using ih h'

theorem removeFirst_count_le (l : List SDNode) (idr id : SheepId) :
    cpgCount (removeFirstSheepid l idr) id ≤ cpgCount l id := by
  induction l with
  | nil => simp [removeFirstSheepid]
  | cons x rest ih =>
      by_cases hx : sheepidEq x.sheepid idr = true
      · rw [removeFirstSheepid, if_pos hx, cpgCount_cons]
        split_ifs <;> omega
      · rw [removeFirstSheepid, if_neg hx, cpgCount_cons, cpgCount_cons]
        split_ifs <;> omega

theorem move_cpg_le (s : SysState) (idr : SheepId) (ent : NodeEntry)
    (id : SheepId) :
    cpgCount (move_node_to_sd_list s idr ent).2.cpgNodeList id ≤
      cpgCount s.cpgNodeList id := by
  unfold move_node_to_sd_list
  rcases h : findNode s.cpgNodeList idr with _ | n
  · simp
  · simpa using removeFirst_count_le s.cpgNodeList idr id

theorem moveLoop_cpg_le (l : List SDNode) (id : SheepId) : ∀ s : SysState,
    cpgCount (moveNodesLoop s l).cpgNodeList id ≤ cpgCount s.cpgNodeList id := by
  induction l with
  | nil => intro s; exact Nat.le_refl _
  | cons x rest ih =>
      intro s
      rw [moveNodesLoop]
      exact Nat.le_trans (ih _) (move_cpg_le s x.sheepid x.ent id)

theorem move_none (s : SysState) (id : SheepId) (ent : NodeEntry)
    (h : findNode s.cpgNodeList id = none) :
    move_node_to_sd_list s id ent = (1, s) := by
  simp [move_node_to_sd_list, h]

theorem move_self_none (s : SysState) (id : SheepId) (ent : NodeEntry)
    (h : cpgCount s.cpgNodeList id ≤ 1) :
    findNode ((move_node_to_sd_list s id ent).2).cpgNodeList id = none := by
  unfold move_node_to_sd_list
  rcases hf : findNode s.cpgNodeList id with _ | n
  · simpa using hf
  · simpa using findNode_after_remove s.cpgNodeList id h

theorem uciJoinBlock_finished (alloc : Nat → Bool) (s : SysState)
    (m : SDMessage) (h : s.joinFinished = true) :
    uciJoinBlock alloc s m = s := by
  simp [uciJoinBlock, h]

theorem uciJoinBlock_cpg_le (alloc : Nat → Bool) (s : SysState)
    (m : SDMessage) (id : SheepId) :
    cpgCount (uciJoinBlock alloc s m).cpgNodeList id ≤
      cpgCount s.cpgNodeList id := by
  unfold uciJoinBlock
  by_cases h : s.joinFinished = true
  · simp [h]
  · rw [if_pos h]
    have base := moveLoop_cpg_le m.jNodes id { s with epoch := m.jEpoch }
    split_ifs <;>
      simp [updateEpochLog, (add_fields alloc _ m).2] <;>
      simpa using base

theorem uciOkBlock_fields (s : SysState) (m : SDMessage) :
    (uciOkBlock s m).joinFinished = s.joinFinished ∧
    (uciOkBlock s m).cpgNodeList = s.cpgNodeList ∧
    (uciOkBlock s m).sdNodeList = s.sdNodeList ∧
    (uciOkBlock s m).leaveList = s.leaveList ∧
    (uciOkBlock s m).status = s.status := by
  unfold uciOkBlock
  split_ifs with h1 h2
  · dsimp only [updateEpochLog, updateEpochStore]
    split <;> simp
  · dsimp only
    split <;> simp
  · simp

theorem uciOkBlock_noinc (s : SysState) (m : SDMessage)
    (hinc : m.jIncEpoch = false ∨
            (m.jClusterStatus ≠ SDStatus.OK ∧ m.jClusterStatus ≠ SDStatus.Halt)) :
    (uciOkBlock s m).epoch = s.epoch ∧ (uciOkBlock s m).epochLog = s.epochLog := by
  unfold uciOkBlock
  rcases hinc with h | h
  · split_ifs with h1 h2
    · simp_all
    · dsimp only
      split <;> simp
    · simp
  · rw [if_neg (by tauto)]
    exact ⟨rfl, rfl⟩



theorem uci_tail_second (alloc : Nat → Bool) (X : SysState) (m : SDMessage)
    (hjf : X.joinFinished = true)
    (hcpg : findNode X.cpgNodeList m.header.sheepid = none)
    (hinc : m.jIncEpoch = false ∨
            (m.jClusterStatus ≠ SDStatus.OK ∧ m.jClusterStatus ≠ SDStatus.Halt)) :
    ({ uciOkBlock ((move_node_to_sd_list (uciJoinBlock alloc X m)
          m.header.sheepid m.header.sfrom).2) m
       with status := m.jClusterStatus } : SysState).sdNodeList = X.sdNodeList ∧
    ({ uciOkBlock ((move_node_to_sd_list (uciJoinBlock alloc X m)
          m.header.sheepid m.header.sfrom).2) m
       with status := m.jClusterStatus } : SysState).leaveList = X.leaveList ∧
    ({ uciOkBlock ((move_node_to_sd_list (uciJoinBlock alloc X m)
          m.header.sheepid m.header.sfrom).2) m
       with status := m.jClusterStatus } : SysState).epoch = X.epoch ∧
    ({ uciOkBlock ((move_node_to_sd_list (uciJoinBlock alloc X m)
          m.header.sheepid m.header.sfrom).2) m
       with status := m.jClusterStatus } : SysState).epochLog = X.epochLog := by
  rw [uciJoinBlock_finished alloc X m hjf, move_none X _ _ hcpg]
  obtain ⟨f1, f2, f3, f4, f5⟩ := uciOkBlock_fields X m
  obtain ⟨e1, e2⟩ := uciOkBlock_noinc X m hinc
  exact ⟨by simpa using f3, by simpa using f4, by simpa using e1,
    by simpa using e2⟩

theorem uci_second (alloc : Nat → Bool) (t : SysState) (m : SDMessage)
    (hres : m.jResult = SDRes.SUCCESS) (hjf : t.joinFinished = true)
    (hcpg : findNode t.cpgNodeList m.header.sheepid = none)
    (hinc : m.jIncEpoch = false ∨
            (m.jClusterStatus ≠ SDStatus.OK ∧ m.jClusterStatus ≠ SDStatus.Halt))
    (hst : t.status = m.jClusterStatus) :
    ∃ t', update_cluster_info alloc t m = some t' ∧
      t'.sdNodeList = t.sdNodeList ∧ t'.leaveList = t.leaveList ∧
      t'.epoch = t.epoch ∧ t'.status = t.status ∧
      t'.epochLog = t.epochLog := by
  by_cases hJF : t.status = SDStatus.JoinFailed
  · exact ⟨t, by simp [update_cluster_info, hres, hJF], rfl, rfl, rfl, rfl, rfl⟩
  · have heq : update_cluster_info alloc t m =
        some { uciOkBlock
                 ((move_node_to_sd_list
                     (uciJoinBlock alloc
                       (if t.nrSobjs = 0 then { t with nrSobjs := m.jNrSobjs }
                        else t) m)
                     m.header.sheepid m.header.sfrom).2) m
               with status := m.jClusterStatus } := by
      unfold update_cluster_info
      rw [if_neg (by simp [hres]), if_neg hJF]
    have hjf' : (if t.nrSobjs = 0 then { t with nrSobjs := m.jNrSobjs }
        else t : SysState).joinFinished = true := by
      split_ifs <;> simpa using hjf
    have hcpg' : findNode (if t.nrSobjs = 0 then { t with nrSobjs := m.jNrSobjs }
        else t : SysState).cpgNodeList m.header.sheepid = none := by
      split_ifs <;> simpa using hcpg
    obtain ⟨c1, c2, c3, c4⟩ := uci_tail_second alloc _ m hjf' hcpg' hinc
    have xsd : (if t.nrSobjs = 0 then { t with nrSobjs := m.jNrSobjs }
        else t : SysState).sdNodeList = t.sdNodeList := by split_ifs <;> rfl
    have xlv : (if t.nrSobjs = 0 then { t with nrSobjs := m.jNrSobjs }
        else t : SysState).leaveList = t.leaveList := by split_ifs <;> rfl
    have xep : (if t.nrSobjs = 0 then { t with nrSobjs := m.jNrSobjs }
        else t : SysState).epoch = t.epoch := by split_ifs <;> rfl
    have xlg : (if t.nrSobjs = 0 then { t with nrSobjs := m.jNrSobjs }
        else t : SysState).epochLog = t.epochLog := by split_ifs <;> rfl
    refine ⟨_, heq, ?_, ?_, ?_, ?_, ?_⟩
    · rw [c1, xsd]
    · rw [c2, xlv]
    · rw [c3, xep]
    · simpa using hst.symm
    · rw [c4, xlg]



theorem uci_tail_first (alloc : Nat → Bool) (X : SysState) (m : SDMessage)
    (hcnt : cpgCount X.cpgNodeList m.header.sheepid ≤ 1) :
    ({ uciOkBlock ((move_node_to_sd_list (uciJoinBlock alloc X m)
          m.header.sheepid m.header.sfrom).2) m
       with status := m.jClusterStatus } : SysState).joinFinished = true ∧
    ({ uciOkBlock ((move_node_to_sd_list (uciJoinBlock alloc X m)
          m.header.sheepid m.header.sfrom).2) m
       with status := m.jClusterStatus } : SysState).status = m.jClusterStatus ∧
    findNode ({ uciOkBlock ((move_node_to_sd_list (uciJoinBlock alloc X m)
          m.header.sheepid m.header.sfrom).2) m
       with status := m.jClusterStatus } : SysState).cpgNodeList
      m.header.sheepid = none := by
  obtain ⟨f1, f2, f3, f4, f5⟩ := uciOkBlock_fields
    ((move_node_to_sd_list (uciJoinBlock alloc X m)
        m.header.sheepid m.header.sfrom).2) m
  refine ⟨?_, by simp, ?_⟩
  · have := (move_fields (uciJoinBlock alloc X m)
      m.header.sheepid m.header.sfrom).1
    simp only [f1]
    rw [this, uciJoinBlock_jf]
  · have hle : cpgCount (uciJoinBlock alloc X m).cpgNodeList
        m.header.sheepid ≤ 1 :=
      Nat.le_trans (uciJoinBlock_cpg_le alloc X m m.header.sheepid) hcnt
    have := move_self_none (uciJoinBlock alloc X m) m.header.sheepid
      m.header.sfrom hle
    simpa [f2] using this

theorem uci_first (alloc : Nat → Bool) (s0 : SysState) (m : SDMessage)
    (hres : m.jResult = SDRes.SUCCESS) (h0 : ¬ s0.status = SDStatus.JoinFailed)
    (hcnt : cpgCount s0.cpgNodeList m.header.sheepid ≤ 1) :
    ∃ s1, update_cluster_info alloc s0 m = some s1 ∧
      s1.joinFinished = true ∧ s1.status = m.jClusterStatus ∧
      findNode s1.cpgNodeList m.header.sheepid = none := by
  have heq : update_cluster_info alloc s0 m =
      some { uciOkBlock
               ((move_node_to_sd_list
                   (uciJoinBlock alloc
                     (if s0.nrSobjs = 0 then { s0 with nrSobjs := m.jNrSobjs }
                      else s0) m)
                   m.header.sheepid m.header.sfrom).2) m
             with status := m.jClusterStatus } := by
    unfold update_cluster_info
    rw [if_neg (by simp [hres]), if_neg h0]
  have hcnt' : cpgCount (if s0.nrSobjs = 0 then { s0 with nrSobjs := m.jNrSobjs }
      else s0 : SysState).cpgNodeList m.header.sheepid ≤ 1 := by
    split_ifs <;> simpa using hcnt
  obtain ⟨c1, c2, c3⟩ := uci_tail_first alloc _ m hcnt'
  exact ⟨_, heq, c1, c2, c3⟩

/-- C5 amended: applying a successful FIN Join message a second time to
the state produced by the first application leaves `sd_node_list`,
`leave_list`, the epoch, the status and the epoch log unchanged, provided
the message does not order an epoch increment into OK/Halt
(`inc_epoch = 0`, or `cluster_status` is neither OK nor Halt — otherwise
each application increments the epoch and writes a snapshot) and the
sender's sheepid occurs at most once on `cpg_node_list` (otherwise the
second application moves a second copy onto `sd_node_list`). -/
theorem claim5_join_idempotent_no_inc (alloc : Nat → Bool) (s0 s1 : SysState) (m : SDMessage)
    (hres : m.jResult = SDRes.SUCCESS)
    (hinc : m.jIncEpoch = false ∨
            (m.jClusterStatus ≠ SDStatus.OK ∧ m.jClusterStatus ≠ SDStatus.Halt))
    (hcnt : cpgCount s0.cpgNodeList m.header.sheepid ≤ 1)
    (h1 : update_cluster_info alloc s0 m = some s1) :
    ∃ s2, update_cluster_info alloc s1 m = some s2 ∧
      s2.sdNodeList = s1.sdNodeList ∧ s2.leaveList = s1.leaveList ∧
      s2.epoch = s1.epoch ∧ s2.status = s1.status ∧
      s2.epochLog = s1.epochLog := by
  by_cases h0 : s0.status = SDStatus.JoinFailed
  · have hs1 : s1 = s0 := by
      simp [update_cluster_info, hres, h0] at h1
      exact h1.symm
    subst hs1
    exact ⟨s1, by simp [update_cluster_info, hres, h0], rfl, rfl, rfl, rfl, rfl⟩
  · obtain ⟨s1', heq, hjf, hst, hcpg⟩ := uci_first alloc s0 m hres h0 hcnt
    rw [heq] at h1
    have hs : s1' = s1 := by injection h1
    subst hs
    exact uci_second alloc s1' m hres hjf hcpg hinc hst



/-- C5 counterexample: `update_cluster_info` is not idempotent on
successful FIN Join messages.  On `sysOkJoined` (an OK cluster at epoch 3)
the FIN Join `msgJoinX` (`cluster_status = OK`, `inc_epoch = 1`) yields
epoch 4; applying the same message to the resulting state increments the
epoch again, to 5 (and writes yet another snapshot), because the
`inc_epoch` branch of group.c lines 838-841 runs on every application. -/
theorem claim5_counterexample :
    (update_cluster_info (fun _ => true) sysOkJoined msgJoinX).map
        SysState.epoch = some 4 ∧
    ((update_cluster_info (fun _ => true) sysOkJoined msgJoinX).bind
        (fun s1 => update_cluster_info (fun _ => true) s1 msgJoinX)).map
        SysState.epoch = some 5 := by
  decide

/-- C5 witness: the amended idempotence at a concrete finished-join node
in WaitForJoin status, exercising the `cluster_status ∉ {OK, Halt}` side
of the hypothesis with `inc_epoch` set. -/
theorem claim5_witness :
    ∃ s2, update_cluster_info (fun _ => true) sysWfjJoined msgJoinWfj =
        some s2 ∧
      s2.sdNodeList = sysWfjJoined.sdNodeList ∧
      s2.leaveList = sysWfjJoined.leaveList ∧
      s2.epoch = sysWfjJoined.epoch ∧ s2.status = sysWfjJoined.status ∧
      s2.epochLog = sysWfjJoined.epochLog :=
  claim5_join_idempotent_no_inc (fun _ => true) sysWfjJoined sysWfjJoined msgJoinWfj rfl
    (Or.inr ⟨by decide, by decide⟩) (by decide) (by decide)


/-- A membership event at the head stops `drainScan` immediately: nothing
is dispatched and the queue is returned as-is. -/
theorem drainScan_mem (reqStep : SysState → Request → SysState × Bool)
    (ev : CpgEvent) (rest : List CpgEvent) (s : SysState) (retry : Bool)
    (h : isMembershipChangeEvent ev = true) :
    drainScan reqStep (ev :: rest) s retry = (ev :: rest, s, retry) := by
  cases ev <;> simp_all [drainScan, isMembershipChangeEvent]

/-- With a membership event at the head of the queue, the drain loop leaves
the pump-relevant state components untouched. -/
theorem drainLoop_mem (reqStep : SysState → Request → SysState × Bool)
    (fuel : Nat) (s : SysState) (ev : CpgEvent) (rest : List CpgEvent)
    (hq : s.queue = ev :: rest) (h : isMembershipChangeEvent ev = true) :
    (drainLoop reqStep fuel s).queue = s.queue ∧
    (drainLoop reqStep fuel s).running = s.running ∧
    (drainLoop reqStep fuel s).suspended = s.suspended ∧
    (drainLoop reqStep fuel s).curCevent = s.curCevent ∧
    (drainLoop reqStep fuel s).nrOutstandingIo = s.nrOutstandingIo := by
  cases fuel with
  | zero => simp [drainLoop]
  | succ n =>
      simp only [drainLoop, hq, drainScan_mem reqStep ev rest s false h]
      simp [hq]

/-- C6: the pump never starts a membership event (driver Join or Leave)
while another event is marked running, and never while
`nr_outstanding_io > 0`: in both cases `start_cpg_event_work` returns with
the membership event still at the head of the queue, `running` unchanged
and no current event taken, whatever the request machinery, callback and
retry fuel do. -/
theorem claim6_no_preempt (reqStep : SysState → Request → SysState × Bool)
    (reqDone : SysState → Request → SysState) (fuel : Nat) (s : SysState)
    (ev : CpgEvent) (rest : List CpgEvent)
    (hq : s.queue = ev :: rest) (hmem : isMembershipChangeEvent ev = true)
    (hblock : s.running = true ∨ 0 < s.nrOutstandingIo) :
    (start_cpg_event_work reqStep reqDone fuel s).queue = s.queue ∧
    (start_cpg_event_work reqStep reqDone fuel s).running = s.running ∧
    (start_cpg_event_work reqStep reqDone fuel s).curCevent = s.curCevent := by
  unfold start_cpg_event_work
  rw [hq]
  by_cases hr : s.running = true
  · simp [hr, hmem, hq]
  · have hio : 0 < s.nrOutstandingIo := by
      rcases hblock with h | h
      · exact absurd h hr
      · exact h
    by_cases hj : s.joining = true
    · by_cases hsus : s.suspended = true
      · cases ev <;> simp_all [isMembershipChangeEvent]
      · simp [hj, hsus, hr, hmem]
    · obtain ⟨q1, q2, q3, q4, q5⟩ := drainLoop_mem reqStep fuel s ev rest hq hmem
      simp only [hj, hr, hmem]
      simp only [Bool.false_eq_true, if_false, and_true, if_true]
      by_cases hsus : s.suspended = true
      · simp [hr, hsus, q1, q2, q3, q4, q5, hq]
      · have hio' : (drainLoop reqStep fuel s).nrOutstandingIo ≠ 0 := by
          rw [q5]; omega
        simp [hr, hsus, q1, q2, q3, q4, hq, hmem, hio']

/-- C6 witness: a leave event at the head of the queue while `running` is
set stays at the head, and the same holds on a quiescent pump with one
outstanding I/O. -/
theorem claim6_witness :
    ((start_cpg_event_work (fun s _ => (s, false)) (fun s _ => s) 1
        { emptySys with queue := [CpgEvent.evLeave false exIdB []],
                        running := true }).queue =
      ({ emptySys with queue := [CpgEvent.evLeave false exIdB []],
                       running := true } : SysState).queue) ∧
    ((start_cpg_event_work (fun s _ => (s, false)) (fun s _ => s) 1
        { emptySys with queue := [CpgEvent.evLeave false exIdB []],
                        nrOutstandingIo := 2 }).queue =
      ({ emptySys with queue := [CpgEvent.evLeave false exIdB []],
                       nrOutstandingIo := 2 } : SysState).queue) :=
  ⟨(claim6_no_preempt (fun s _ => (s, false)) (fun s _ => s) 1
      { emptySys with queue := [CpgEvent.evLeave false exIdB []],
                      running := true }
      (CpgEvent.evLeave false exIdB []) [] rfl rfl (Or.inl rfl)).1,
   (claim6_no_preempt (fun s _ => (s, false)) (fun s _ => s) 1
      { emptySys with queue := [CpgEvent.evLeave false exIdB []],
                      nrOutstandingIo := 2 }
      (CpgEvent.evLeave false exIdB []) [] rfl rfl
      (Or.inr (by decide))).1⟩

/-- C7: before the local node has finished joining, the stage-1 notify
handler marks every notify whose sender sheepid differs from the local one
as skip — except `MasterTransfer` messages — and returns before touching
the state; and `cpg_event_done` on a skipped event runs none of the
stage-2 dispatch (for every possible dispatch function): the event is
taken off `cur_cevent` and freed and `running` is cleared, nothing else. -/
theorem claim7_skip_rule :
    (∀ (vdiOpStep bitmapStep : SysState → SDMessage → SysState)
       (s : SysState) (m : SDMessage),
       s.joinFinished = false → masterTxMessage m.header = false →
       sheepidEq m.header.sheepid s.thisSheepid = false →
       sd_notify_stage1 vdiOpStep bitmapStep s m = (s, true)) ∧
    (∀ (dispatch : SysState → CpgEvent → SysState) (s : SysState)
       (ev : CpgEvent), s.curCevent = some ev → ev.skipBit = true →
       cpg_event_done_core dispatch s =
         { s with curCevent := none, running := false }) := by
  constructor
  · intro v b s m h1 h2 h3
    simp [sd_notify_stage1, h1, h2, h3]
  · intro d s ev h1 h2
    simp only [cpg_event_done_core, h1]
    by_cases hs : s.suspended = true <;> simp [hs, h2]

/-- C7 witness: a leave notify from node B on a fresh node (join not
finished) is skipped with no state change, and completing a skipped
notify event only clears `cur_cevent` and `running`. -/
theorem claim7_witness :
    sd_notify_stage1 (fun s _ => s) (fun s _ => s) emptySys msgLeaveB =
      (emptySys, true) ∧
    cpg_event_done_core (fun s _ => s) sysSkipEv =
      { sysSkipEv with curCevent := none, running := false } :=
  ⟨claim7_skip_rule.1 (fun s _ => s) (fun s _ => s) emptySys msgLeaveB
      rfl rfl rfl,
   claim7_skip_rule.2 (fun s _ => s) sysSkipEv
      (CpgEvent.evNotify true msgLeaveB) rfl rfl⟩

/-- C3 witness: the amended threshold at the 3-node cluster with one
reachable member — the abort case the claim's own example describes. -/
theorem claim3_witness :
    sd_leave_aborts sysThree (fun e => e.zone = 1) exIdX = true :=
  (claim3_majority_floor sysThree (fun e => e.zone = 1) exIdX).2
    (by decide)

/-- C8: `add_node_to_leave_list` leaves `sys->leave_list` unchanged
whenever it returns a non-Success result (allocation failure on either the
leave arm or partway through the `leave_nodes[]` loop of a join message,
and `INVALID_PARMS` for any other op). -/
theorem claim8_leave_list_unchanged (alloc : Nat → Bool) (s : SysState)
    (m : SDMessage)
    (h : (add_node_to_leave_list alloc s m).1 ≠ SDRes.SUCCESS) :
    (add_node_to_leave_list alloc s m).2.leaveList = s.leaveList := by
  unfold add_node_to_leave_list at h ⊢
  by_cases h1 : leaveMessage m.header = true
  · by_cases h2 : alloc 0 = true
    · exfalso; apply h
      simp only [h1, if_true, h2, not_true_eq_false, if_false]
      split <;> rfl
    · simp [h1, h2]
  · by_cases h3 : joinMessage m.header = true
    · simp only [h1, h3, if_true, Bool.false_eq_true, if_false] at h ⊢
      rcases hl : addLeaveLoop alloc s.epochLog (getLatestEpoch s.epochLog)
          s.leaveList m.jLeaveNodes 0 [] with _ | tmp
      · simp [hl]
      · simp [hl] at h
    · simp [h1, h3] at h ⊢

/-- C8 witness: a leave message under total allocation failure yields
`NO_MEM` and an unchanged leave list. -/
theorem claim8_witness :
    (add_node_to_leave_list (fun _ => false) sysOk3 msgLeaveB).2.leaveList =
      sysOk3.leaveList :=
  claim8_leave_list_unchanged (fun _ => false) sysOk3 msgLeaveB (by decide)

/-- C9: when `sys->status` is Shutdown, `sd_join_handler` and
`sd_leave_handler` return immediately after logging: no event is appended
to the queue and no state is modified, for every joined/left node and
member list (and any request machinery, fuel and allocation outcome). -/
theorem claim9_shutdown_handlers_noop
    (reqStep : SysState → Request → SysState × Bool)
    (reqDone : SysState → Request → SysState) (fuel : Nat) (allocOk : Bool)
    (s : SysState) (idn : SheepId) (members : List SheepId)
    (h : s.status = SDStatus.Shutdown) :
    sd_join_handler reqStep reqDone fuel allocOk s idn members = s ∧
    sd_leave_handler reqStep reqDone fuel allocOk s idn members = s := by
  unfold sd_join_handler sd_leave_handler
  simp [h]

/-- C9 witness: both handlers on a concrete Shutdown state. -/
theorem claim9_witness :
    sd_join_handler (fun s _ => (s, false)) (fun s _ => s) 1 true
        { emptySys with status := SDStatus.Shutdown } exIdA [exIdA] =
      { emptySys with status := SDStatus.Shutdown } ∧
    sd_leave_handler (fun s _ => (s, false)) (fun s _ => s) 1 true
        { emptySys with status := SDStatus.Shutdown } exIdA [exIdA] =
      { emptySys with status := SDStatus.Shutdown } :=
  claim9_shutdown_handlers_noop (fun s _ => (s, false)) (fun s _ => s) 1 true
    { emptySys with status := SDStatus.Shutdown } exIdA [exIdA] rfl

/-- C10: `del_node` increments `sys->epoch` and writes the new snapshot
(to `epoch + 1`) exactly when the departing node is on `sd_node_list` and
the status is OK or Halt; a node that is only on `cpg_node_list` is
unlinked from it, the call returns 0, and `sd_node_list`, the epoch and
the epoch log are untouched. -/
theorem claim10_del_node :
    (∀ (s : SysState) (id : SheepId),
      ((del_node s id).2.epoch = s.epoch + 1 ∧
       (del_node s id).2.epochLog =
         epochLogWrite s.epochLog (s.epoch + 1)
           (sortedEntries (removeFirstSheepid s.sdNodeList id))) ↔
      ((findNode s.sdNodeList id).isSome = true ∧
       (s.status = SDStatus.OK ∨ s.status = SDStatus.Halt))) ∧
    (∀ (s : SysState) (id : SheepId),
      findNode s.sdNodeList id = none →
      (findNode s.cpgNodeList id).isSome = true →
      (del_node s id).1 = 0 ∧
      (del_node s id).2.cpgNodeList = removeFirstSheepid s.cpgNodeList id ∧
      (del_node s id).2.sdNodeList = s.sdNodeList ∧
      (del_node s id).2.epoch = s.epoch ∧
      (del_node s id).2.epochLog = s.epochLog) := by
  constructor
  · intro s id
    rcases hf : findNode s.sdNodeList id with _ | n
    · rcases hc : findNode s.cpgNodeList id with _ | n <;>
        simp [del_node, hf, hc]
    · by_cases hs : s.status = SDStatus.OK ∨ s.status = SDStatus.Halt
      · simp [del_node, hf, hs, updateEpochStore]
      · simp [del_node, hf, hs]
  · intro s id h1 h2
    rcases hc : findNode s.cpgNodeList id with _ | n
    · rw [hc] at h2; simp at h2
    · simp [del_node, h1, hc]

/-- C10 witness: deleting node B from the OK 2-node cluster `sysOk3`
increments the epoch and writes the one-entry snapshot at epoch 4;
deleting a cpg-only node from `sysOkJoined` leaves everything else
untouched. -/
theorem claim10_witness :
    (del_node sysOk3 exIdB).2.epoch = sysOk3.epoch + 1 ∧
    (del_node sysOkJoined exIdX).1 = 0 ∧
    (del_node sysOkJoined exIdX).2.sdNodeList = sysOkJoined.sdNodeList :=
  ⟨((claim10_del_node.1 sysOk3 exIdB).2 (by decide)).1,
   ((claim10_del_node.2 sysOkJoined exIdX) (by decide) (by decide)).1,
   ((claim10_del_node.2 sysOkJoined exIdX) (by decide) (by decide)).2.2.1⟩

end Sheepdog
